import Mathlib

/-
Shallow embedding of src/LocateFinderWSL.py, a Tkinter front-end around the
WSL `locate` command.  The dispatcher (`perform_search`), the presenter loop
(`check_queue`), the trigger (`start_search`) and the open handler
(`open_selected_file`) are translated from the source; subprocess execution
is abstracted as an oracle `List String → Except PyExc CompletedProcess`
standing for `subprocess.run`, which either returns a completed process
(with exit status and captured stdout) or raises a Python exception.
-/

namespace LocateFinderWSL

/-- Whitespace characters stripped by Python `str.strip()` on ASCII text
(space, tab, newline, carriage return, vertical tab, form feed).  Python
also strips some further Unicode space characters, which the strings
handled by this program do not contain. -/
def pyIsSpace (c : Char) : Bool :=
  c = ' ' || c = '\t' || c = '\n' || c = '\r' || c = '\x0b' || c = '\x0c'

/-- Leading and trailing whitespace removal on a character list. -/
def stripChars (cs : List Char) : List Char :=
  ((cs.dropWhile pyIsSpace).reverse.dropWhile pyIsSpace).reverse

/-- Embedding of Python `str.strip()` with no argument. -/
def pyStrip (s : String) : String :=
  String.mk (stripChars s.toList)

/-- Splitting a character list on the newline character, as Python
`str.split('\n')` does: the empty input yields one empty field, and each
newline separates two fields. -/
def splitNlAux : List Char → List (List Char)
  | [] => [[]]
  | c :: rest =>
    if c = '\n' then [] :: splitNlAux rest
    else
      match splitNlAux rest with
      | [] => [[c]]
      | l :: ls => (c :: l) :: ls

/-- Embedding of Python `str.split('\n')`. -/
def pySplitNl (s : String) : List String :=
  (splitNlAux s.toList).map String.mk

/-- A search request: the term typed by the user together with the three
option checkboxes (`self.ignore_case`, `self.exist_only`,
`self.basename_only`). -/
structure SearchRequest where
  term : String
  ignore_case : Bool
  exist_only : Bool
  basename_only : Bool

/-- Result of `subprocess.run(..., capture_output=True, text=True)`:
a `CompletedProcess` with its exit status and decoded stdout. -/
structure CompletedProcess where
  returncode : Int
  stdout : String

/-- Python exceptions that a `subprocess.run` call in this program can
raise.  `subprocess.run` raises `CalledProcessError` only when called with
`check=True`, which this program never passes; its realistic failures are
`FileNotFoundError` (bridge binary missing), `UnicodeDecodeError` and other
`OSError`s, all covered by the remaining constructors. -/
inductive PyExc where
  | calledProcessError (msg : String)
  | fileNotFoundError (msg : String)
  | other (msg : String)
deriving DecidableEq

/-- Embedding of Python `str(e)` on a caught exception. -/
def pyStr : PyExc → String
  | .calledProcessError m => m
  | .fileNotFoundError m => m
  | .other m => m

/-- Messages placed on the thread-communication queue (`self.queue`): the
tuples `('results', paths)` and `('error', str(e))`. -/
inductive Msg where
  | results (paths : List String)
  | error (msg : String)
deriving DecidableEq

/-- User-visible state owned by the presenter: the results listbox, the
status line, the progress bar (busy indicator) and whether the search
button is enabled. -/
structure ViewState where
  results_list : List String
  status_var : String
  progress_active : Bool
  search_button_enabled : Bool
deriving DecidableEq

/-- Command construction from `perform_search` (lines 158-166): start from
`['wsl', 'locate']`, append one flag per set option in the fixed order
ignore-case, existing, basename, and append the search term last. -/
def buildCmd (req : SearchRequest) : List String :=
  let cmd := ["wsl", "locate"]
  let cmd := if req.ignore_case then cmd ++ ["--ignore-case"] else cmd
  let cmd := if req.exist_only then cmd ++ ["--existing"] else cmd
  let cmd := if req.basename_only then cmd ++ ["--basename"] else cmd
  cmd ++ [req.term]

/-- The flag segment of a built command: everything after the two-element
bridge prefix `['wsl', 'locate']` and before the final term. -/
def flagsPart (req : SearchRequest) : List String :=
  ((buildCmd req).drop 2).dropLast

/-- Output parsing from `perform_search` (lines 170-173):
`result.stdout.strip().split('\n')` followed by dropping empty strings. -/
def parsePaths (stdout : String) : List String :=
  (pySplitNl (pyStrip stdout)).filter (fun p => p ≠ "")

/-- Embedding of `perform_search` (lines 156-179).  The whole body runs
under `try`/`except Exception`, so a raising `subprocess.run` reaches the
handler, which enqueues `('error', str(e))`; on a completed process the
parsed stdout is enqueued as `('results', paths)`.  The returned list is
the sequence of messages put on the queue by this call, in order. -/
def perform_search (req : SearchRequest)
    (run : List String → Except PyExc CompletedProcess) : List Msg :=
  match run (buildCmd req) with
  | .ok result => [Msg.results (parsePaths result.stdout)]
  | .error e => [Msg.error (pyStr e)]

/-- Body of the drain loop in `check_queue` (lines 186-199): how one queue
message updates the view.  A results message appends each path to the
listbox and reports the count; an error message reports the error text;
both stop and hide the progress bar and re-enable the search button. -/
def handleMsg (s : ViewState) : Msg → ViewState
  | .results paths =>
    { s with
      results_list := s.results_list ++ paths,
      status_var := "Found " ++ toString paths.length ++ " results",
      progress_active := false,
      search_button_enabled := true }
  | .error msg =>
    { s with
      status_var := "Error: " ++ msg,
      progress_active := false,
      search_button_enabled := true }

/-- Embedding of `check_queue` (lines 181-205): `get_nowait` in a
`while True` loop consumes pending messages one by one until the queue is
empty, at which point the `queue.Empty` exception is swallowed and the
loop exits.  Returns the final view state and the remaining queue. -/
def check_queue : ViewState → List Msg → ViewState × List Msg
  | s, [] => (s, [])
  | s, m :: rest => check_queue (handleMsg s m) rest

/-- Embedding of `start_search` (lines 138-154).  An empty term only sets
the status line; otherwise the previous results are cleared, the progress
bar is shown, the button is disabled, and a background `perform_search` is
started with the term.  The second component is the term handed to the
dispatched worker, `none` when no dispatch happens. -/
def start_search (s : ViewState) (search_term : String) :
    ViewState × Option String :=
  if search_term = "" then
    ({ s with status_var := "Please enter a search term" }, none)
  else
    ({ s with
        results_list := [],
        progress_active := true,
        search_button_enabled := false,
        status_var := "Searching..." },
     some search_term)

/-- Observable effect of one `open_selected_file` call: the view state
afterwards, the subprocess commands invoked in order, and the exception
escaping the handler, if any. -/
structure OpenEffect where
  state : ViewState
  calls : List (List String)
  uncaught : Option PyExc
deriving DecidableEq

/-- Embedding of `open_selected_file` (lines 207-224).  With no selection
it returns at once.  Otherwise it runs `wsl wslpath -w` on the selected
path; on a completed process (any exit status) it strips the stdout and
invokes `explorer.exe /select,` on it; the `except` clause catches only
`subprocess.CalledProcessError`, setting the status line, so any other
exception escapes the handler.  The explorer invocation is modelled as a
recorded effect. -/
def open_selected_file (s : ViewState) (selection : Option Nat)
    (run : List String → Except PyExc CompletedProcess) : OpenEffect :=
  match selection with
  | none => ⟨s, [], none⟩
  | some idx =>
    let wsl_path := s.results_list.getD idx ""
    let cmd := ["wsl", "wslpath", "-w", wsl_path]
    match run cmd with
    | .ok result =>
      let windows_path := pyStrip result.stdout
      ⟨s, [cmd, ["explorer.exe", "/select,", windows_path]], none⟩
    | .error (.calledProcessError m) =>
      ⟨{ s with status_var := "Error opening file: " ++ m }, [cmd], none⟩
    | .error e => ⟨s, [cmd], some e⟩

/-- Helper: `check_queue` folds the handler over the whole inbox and
leaves it empty. -/
lemma check_queue_eq_foldl (inbox : List Msg) (s : ViewState) :
    check_queue s inbox = (inbox.foldl handleMsg s, []) := by
  induction inbox generalizing s with
  | nil => rfl
  | cons m rest ih => simpa [check_queue] using ih (handleMsg s m)

/-- C3: the constructed command starts with the bridge prefix, carries
`--ignore-case` in its flag segment iff `ignore_case` is set, `--existing`
iff `exist_only` is set, `--basename` iff `basename_only` is set, with the
search term as the final positional argument; the request
{ignoreCase:true, existingOnly:false, basenameOnly:true, term:"x"} yields
exactly `wsl locate --ignore-case --basename x`. -/
theorem flag_construction (req : SearchRequest) :
    (buildCmd req).getLast? = some req.term ∧
    buildCmd req = ["wsl", "locate"] ++ flagsPart req ++ [req.term] ∧
    ("--ignore-case" ∈ flagsPart req ↔ req.ignore_case = true) ∧
    ("--existing" ∈ flagsPart req ↔ req.exist_only = true) ∧
    ("--basename" ∈ flagsPart req ↔ req.basename_only = true) ∧
    buildCmd ⟨"x", true, false, true⟩ =
      ["wsl", "locate", "--ignore-case", "--basename", "x"] := by
  obtain ⟨term, ic, eo, bo⟩ := req
  cases ic <;> cases eo <;> cases bo <;>
    simp [buildCmd, flagsPart, List.getLast?_concat]

/-- C5: `check_queue` on an empty inbox leaves the view state unchanged,
and on any inbox of N pending messages it drains all N in the one
invocation, folding the handler over them in order. -/
theorem poll_drains_inbox :
    (∀ s : ViewState, check_queue s [] = (s, [])) ∧
    (∀ (s : ViewState) (inbox : List Msg),
      check_queue s inbox = (inbox.foldl handleMsg s, [])) := by
  exact ⟨fun s => rfl, fun s inbox => check_queue_eq_foldl inbox s⟩

/-- C7: with an empty search term, `start_search` dispatches no worker
(second component `none`, hence no process is spawned) and changes nothing
in the view state except the status line, which reports the empty-input
condition. -/
theorem empty_term_no_dispatch (s : ViewState) :
    start_search s "" =
      ({ s with status_var := "Please enter a search term" }, none) := by
  simp [start_search]

/-- C9: `open_selected_file` with no row selected is a no-op: the view
state is returned unchanged, no subprocess is invoked, and no exception
escapes. -/
theorem open_no_selection_noop (s : ViewState)
    (run : List String → Except PyExc CompletedProcess) :
    open_selected_file s none run = ⟨s, [], none⟩ := by
  rfl

/-- C1: one dispatched `perform_search` puts exactly one message on the
queue, whatever the subprocess does: a results message carrying the parsed
stdout when the process completes, and an error message carrying the
exception text when it raises — so no exception escapes the dispatch
context. -/
theorem dispatch_single_outcome (req : SearchRequest)
    (run : List String → Except PyExc CompletedProcess) :
    (perform_search req run).length = 1 ∧
    (∀ r, run (buildCmd req) = .ok r →
      perform_search req run = [Msg.results (parsePaths r.stdout)]) ∧
    (∀ e, run (buildCmd req) = .error e →
      perform_search req run = [Msg.error (pyStr e)]) := by
  refine ⟨?_, ?_, ?_⟩
  · rcases hr : run (buildCmd req) with e | r <;> simp [perform_search, hr]
  · intro r hr; simp [perform_search, hr]
  · intro e he; simp [perform_search, he]

/-- Witness for C1 at a concrete request and a stubbed subprocess. -/
theorem dispatch_single_outcome_witness :
    (perform_search ⟨"x", true, true, false⟩
        (fun _ => .ok ⟨0, "a\nb"⟩)).length = 1 ∧
    perform_search ⟨"x", true, true, false⟩ (fun _ => .ok ⟨0, "a\nb"⟩) =
      [Msg.results ["a", "b"]] := by
  have h := dispatch_single_outcome ⟨"x", true, true, false⟩
    (fun _ => .ok ⟨0, "a\nb"⟩)
  have h2 := h.2.1 ⟨0, "a\nb"⟩ rfl
  have h3 : parsePaths "a\nb" = ["a", "b"] := rfl
  exact ⟨h.1, by rw [h2, h3]⟩

/-- C6: after a search is triggered with a non-empty term and the poll then
consumes a Failure outcome, the busy indicator is off, the search button is
re-enabled, the result listbox is empty (it was cleared on search start and
the error branch does not populate it), and the status line is the failure
message prefixed with "Error: ". -/
theorem failure_resets_view (s : ViewState) (term e : String)
    (h : term ≠ "") :
    ((check_queue (start_search s term).1 [Msg.error e]).1).progress_active
        = false ∧
    ((check_queue (start_search s term).1
        [Msg.error e]).1).search_button_enabled = true ∧
    ((check_queue (start_search s term).1 [Msg.error e]).1).results_list
        = [] ∧
    ((check_queue (start_search s term).1 [Msg.error e]).1).status_var
        = "Error: " ++ e := by
  simp [start_search, h, check_queue, handleMsg]

/-- Witness for C6 at a concrete prior state, term and failure message. -/
theorem failure_resets_view_witness :
    ("abc" : String) ≠ "" ∧
    ((check_queue (start_search ⟨["old"], "idle", false, true⟩ "abc").1
        [Msg.error "boom"]).1).status_var = "Error: boom" := by
  refine ⟨by decide, ?_⟩
  exact (failure_resets_view ⟨["old"], "idle", false, true⟩ "abc" "boom"
    (by decide)).2.2.2

/-- C8: `perform_search` never inspects the exit status: whenever the
subprocess completes (with any returncode, zero or not) and its stdout
parses, the outcome is a Results message, and the outcome is literally
independent of the returncode. -/
theorem exit_status_ignored (req : SearchRequest)
    (run : List String → Except PyExc CompletedProcess)
    (r : CompletedProcess) (h : run (buildCmd req) = .ok r) :
    perform_search req run = [Msg.results (parsePaths r.stdout)] ∧
    (∀ rc₁ rc₂ : Int, ∀ out : String,
      perform_search req (fun _ => .ok ⟨rc₁, out⟩) =
        perform_search req (fun _ => .ok ⟨rc₂, out⟩)) := by
  exact ⟨by simp [perform_search, h], fun rc₁ rc₂ out => rfl⟩

/-- Witness for C8: a non-zero exit status with clean stdout still yields a
Results outcome. -/
theorem exit_status_ignored_witness :
    perform_search ⟨"x", true, true, false⟩ (fun _ => .ok ⟨23, "a/b"⟩) =
      [Msg.results ["a/b"]] := by
  have h := (exit_status_ignored ⟨"x", true, true, false⟩
    (fun _ => .ok ⟨23, "a/b"⟩) ⟨23, "a/b"⟩ rfl).1
  have h2 : parsePaths "a/b" = ["a/b"] := rfl
  rw [h, h2]

/-- C10: when the subprocess completes with empty or whitespace-only
stdout, the outcome is `Results []` — never a Failure — and the presenter
then reports a count of 0 results. -/
theorem empty_output_zero_results (req : SearchRequest)
    (run : List String → Except PyExc CompletedProcess)
    (r : CompletedProcess) (h : run (buildCmd req) = .ok r)
    (hw : pyStrip r.stdout = "") :
    perform_search req run = [Msg.results []] ∧
    (∀ s : ViewState,
      (handleMsg s (Msg.results [])).status_var = "Found 0 results") := by
  have hp : parsePaths r.stdout = [] := by
    unfold parsePaths
    rw [hw]
    rfl
  exact ⟨by simp [perform_search, h, hp], fun s => rfl⟩

/-- Witness for C10 at whitespace-only stdout. -/
theorem empty_output_zero_results_witness :
    pyStrip " \n " = "" ∧
    perform_search ⟨"x", true, true, false⟩ (fun _ => .ok ⟨1, " \n "⟩) =
      [Msg.results []] := by
  refine ⟨rfl, ?_⟩
  exact (empty_output_zero_results ⟨"x", true, true, false⟩
    (fun _ => .ok ⟨1, " \n "⟩) ⟨1, " \n "⟩ rfl rfl).1

/-- C4 counterexample: on stdout `" a/b/c"` the code yields
`Results ["a/b/c"]`, while splitting the captured output into lines and
discarding exactly the empty lines would yield `[" a/b/c"]` — the leading
whitespace of the boundary line is stripped, so the claim as stated fails
at this input. -/
theorem parse_lines_counterexample :
    perform_search ⟨"x", true, true, false⟩ (fun _ => .ok ⟨0, " a/b/c"⟩) =
      [Msg.results ["a/b/c"]] ∧
    (pySplitNl " a/b/c").filter (fun p => p ≠ "") = [" a/b/c"] ∧
    ([("a/b/c" : String)] ≠ [(" a/b/c" : String)]) := by
  exact ⟨rfl, rfl, by decide⟩

/-- C4 amended: on success the captured stdout is first stripped of
leading and trailing whitespace, then split into lines, with exactly the
empty lines discarded and the order of the rest preserved; in particular,
on stdout already free of boundary whitespace this is precisely
split-then-filter, and the spec example `"a/b/c\n\na/b/d"` yields exactly
`["a/b/c", "a/b/d"]`. -/
theorem parse_lines_amended (req : SearchRequest)
    (run : List String → Except PyExc CompletedProcess)
    (r : CompletedProcess) (h : run (buildCmd req) = .ok r) :
    perform_search req run =
      [Msg.results ((pySplitNl (pyStrip r.stdout)).filter
        (fun p => p ≠ ""))] ∧
    (pyStrip r.stdout = r.stdout →
      perform_search req run =
        [Msg.results ((pySplitNl r.stdout).filter (fun p => p ≠ ""))]) ∧
    parsePaths "a/b/c\n\na/b/d" = ["a/b/c", "a/b/d"] := by
  refine ⟨by simp [perform_search, h, parsePaths], ?_, rfl⟩
  intro ht
  simp [perform_search, h, parsePaths, ht]

/-- Witness for C4 amended at the spec's stub output. -/
theorem parse_lines_amended_witness :
    pyStrip "a/b/c\n\na/b/d" = "a/b/c\n\na/b/d" ∧
    perform_search ⟨"x", true, true, false⟩
        (fun _ => .ok ⟨0, "a/b/c\n\na/b/d"⟩) =
      [Msg.results ["a/b/c", "a/b/d"]] := by
  refine ⟨rfl, ?_⟩
  have h := ((parse_lines_amended ⟨"x", true, true, false⟩
    (fun _ => .ok ⟨0, "a/b/c\n\na/b/d"⟩) ⟨0, "a/b/c\n\na/b/d"⟩ rfl).2.1) rfl
  have h2 : (pySplitNl "a/b/c\n\na/b/d").filter (fun p => p ≠ "") =
      ["a/b/c", "a/b/d"] := rfl
  rw [h, h2]

/-- C2: evaluation at the failing input.  The handler catches only
`subprocess.CalledProcessError`, which `subprocess.run` without
`check=True` never raises; when the path-translation invocation fails with
a `FileNotFoundError`, the view state — including the status line — is
unchanged and the exception escapes the handler, contradicting the claim
that the status message reports the error.  (The result list is indeed
unaffected on every path.) -/
theorem translation_failure_unreported :
    (open_selected_file ⟨["/mnt/d/report.txt"], "Found 1 results",
        false, true⟩ (some 0)
      (fun _ => .error (.fileNotFoundError "No such file or directory: wsl")))
      =
      ⟨⟨["/mnt/d/report.txt"], "Found 1 results", false, true⟩,
       [["wsl", "wslpath", "-w", "/mnt/d/report.txt"]],
       some (.fileNotFoundError "No such file or directory: wsl")⟩ ∧
    (∀ (s : ViewState) (sel : Option Nat)
        (run : List String → Except PyExc CompletedProcess),
      (open_selected_file s sel run).state.results_list =
        s.results_list) := by
  refine ⟨rfl, ?_⟩
  intro s sel run
  rcases sel with _ | idx
  · rfl
  · simp only [open_selected_file]
    split <;> rfl

end LocateFinderWSL
